import Mathlib

/-!
Verification of the window-manager interaction model of the GioPrompt
retro-desktop UI: the `MacWindow` minimize/maximize/resize/drag state machine
(`components/mac-window.tsx`) and the `DesktopIcon` grid-snap and click
disambiguation logic.

Pixel coordinates are modelled as rationals (JS numbers, float rounding
ignored).  Each definition is a direct transcription of the corresponding
source function; event-driven behaviour (pointer-move frames, the
click-disambiguation timer) is modelled as explicit state passing.
-/

namespace GioPrompt

/-- MenuBar height constant (includes border), from mac-window.tsx. -/
def MENU_BAR_HEIGHT : ℚ := 42

/-- A pixel coordinate pair `\x7b x, y \x7d`. -/
structure Point where
  x : ℚ
  y : ℚ
deriving DecidableEq

/-- A pixel dimension pair `\x7b width, height \x7d`. -/
structure Size where
  width : ℚ
  height : ℚ
deriving DecidableEq

/-! ## Window entity state (mac-window.tsx `MacWindow` component state) -/

/-- The `preMaximizeState` React state cell:
`useState(\x7b position: initialPosition, size: \x7b width: 0, height: 0 \x7d, wasSet: false \x7d)`. -/
structure PreMaxState where
  position : Point
  size : Size
  wasSet : Bool
deriving DecidableEq

/-- The geometry-relevant React state of one `MacWindow`:
`position`, `size`, `isMinimized`, `isMaximized`, `preMaximizeState`. -/
structure WindowState where
  position : Point
  size : Size
  isMinimized : Bool
  isMaximized : Bool
  preMaximizeState : PreMaxState
deriving DecidableEq

/-- Initial state of a `MacWindow` mounted with `initialPosition`:
`position := initialPosition` (stored verbatim), `size := \x7b0,0\x7d`,
both flags false, snapshot not yet captured. -/
def initWindow (initialPosition : Point) : WindowState :=
  { position := initialPosition
    size := ⟨0, 0⟩
    isMinimized := false
    isMaximized := false
    preMaximizeState := ⟨initialPosition, ⟨0, 0⟩, false⟩ }

/-- `handleMinimize`: `setIsMinimized(!isMinimized); if (isMaximized) setIsMaximized(false)`. -/
def handleMinimize (w : WindowState) : WindowState :=
  { w with
    isMinimized := !w.isMinimized
    isMaximized := if w.isMaximized then false else w.isMaximized }

/-- `handleMaximize`:
on entering maximize (`!isMaximized`) capture `\x7bposition, size, wasSet: true\x7d`
into `preMaximizeState` and `setPosition(\x7bx: 0, y: MENU_BAR_HEIGHT\x7d)`;
on leaving, restore the snapshot only `if (preMaximizeState.wasSet)`;
then flip `isMaximized` and clear `isMinimized` if it was set. -/
def handleMaximize (w : WindowState) : WindowState :=
  if !w.isMaximized then
    { w with
      preMaximizeState := ⟨w.position, w.size, true⟩
      position := ⟨0, MENU_BAR_HEIGHT⟩
      isMaximized := !w.isMaximized
      isMinimized := if w.isMinimized then false else w.isMinimized }
  else if w.preMaximizeState.wasSet then
    { w with
      position := w.preMaximizeState.position
      size := w.preMaximizeState.size
      isMaximized := !w.isMaximized
      isMinimized := if w.isMinimized then false else w.isMinimized }
  else
    { w with
      isMaximized := !w.isMaximized
      isMinimized := if w.isMinimized then false else w.isMinimized }

/-- Display position from the inline style of the window element
(draggable desktop branch): `left: isMaximized ? 4 : position.x`,
`top: isMaximized ? MENU_BAR_HEIGHT : position.y`. -/
def displayedPosition (w : WindowState) : Point :=
  ⟨if w.isMaximized then 4 else w.position.x,
   if w.isMaximized then MENU_BAR_HEIGHT else w.position.y⟩

/-- The two title-bar toggles that drive the minimize/maximize flags. -/
inductive WinOp
  | minimize
  | maximize
deriving DecidableEq

/-- Apply one toggle. -/
def applyOp (w : WindowState) : WinOp → WindowState
  | .minimize => handleMinimize w
  | .maximize => handleMaximize w

/-- Run a sequence of toggles left to right. -/
def runOps (w : WindowState) (ops : List WinOp) : WindowState :=
  ops.foldl applyOp w

/-! ## Eight-direction resize (mac-window.tsx `handleResizeStart`) -/

/-- The eight resize directions, from the `ResizeDirection` string union. -/
inductive ResizeDirection
  | n | s | e | w | ne | nw | se | sw
deriving DecidableEq

/-- Models `direction.includes(n)` on the direction code string. -/
def ResizeDirection.includesN : ResizeDirection → Bool
  | .n | .ne | .nw => true
  | _ => false

/-- Models `direction.includes(s)` on the direction code string. -/
def ResizeDirection.includesS : ResizeDirection → Bool
  | .s | .se | .sw => true
  | _ => false

/-- Models `direction.includes(e)` on the direction code string. -/
def ResizeDirection.includesE : ResizeDirection → Bool
  | .e | .ne | .se => true
  | _ => false

/-- Models `direction.includes(w)` on the direction code string. -/
def ResizeDirection.includesW : ResizeDirection → Bool
  | .w | .nw | .sw => true
  | _ => false

/-- The `resizeStart` ref captured at pointer-down: starting pointer position,
starting rect dimensions, starting window position. -/
structure ResizeStart where
  x : ℚ
  y : ℚ
  width : ℚ
  height : ℚ
  posX : ℚ
  posY : ℚ
deriving DecidableEq

/-- `const minWidth = 320` in the resize move handler. -/
def minWidth : ℚ := 320

/-- `const minHeight = 200` in the resize move handler. -/
def minHeight : ℚ := 200

/-- The session guard of `handleResizeStart`:
`if (!resizable || isMaximized || isMobile) return`. -/
def canStartResize (resizable isMaximized isMobile : Bool) : Bool :=
  resizable && !isMaximized && !isMobile

/-- One pointer-move frame of the resize session: the `handleMouseMove`
closure inside `handleResizeStart`.  Returns the `(size, position)` pair the
frame commits via `setSize` and `setPosition`. -/
def resizeFrame (start : ResizeStart) (direction : ResizeDirection)
    (clientX clientY : ℚ) : Size × Point :=
  let deltaX := clientX - start.x
  let deltaY := clientY - start.y
  let hor : ℚ × ℚ :=
    if direction.includesE then
      (max minWidth (start.width + deltaX), start.posX)
    else if direction.includesW then
      let potentialWidth := start.width - deltaX
      if potentialWidth ≥ minWidth then
        (potentialWidth, start.posX + deltaX)
      else
        (start.width, start.posX)
    else
      (start.width, start.posX)
  let ver : ℚ × ℚ :=
    if direction.includesS then
      (max minHeight (start.height + deltaY), start.posY)
    else if direction.includesN then
      let potentialHeight := start.height - deltaY
      let potentialY := start.posY + deltaY
      if potentialHeight ≥ minHeight ∧ potentialY ≥ MENU_BAR_HEIGHT then
        (potentialHeight, potentialY)
      else
        (start.height, start.posY)
    else
      (start.height, start.posY)
  (⟨hor.1, ver.1⟩, ⟨hor.2, ver.2⟩)

/-! ## Grid snapping and icon drag commit (DesktopIcon component) -/

/-- `GRID_SIZE_X = 90`, width of each grid cell. -/
def GRID_SIZE_X : ℚ := 90

/-- `GRID_SIZE_Y = 84`, height of each grid cell. -/
def GRID_SIZE_Y : ℚ := 84

/-- `GRID_OFFSET_X = 8`, left margin. -/
def GRID_OFFSET_X : ℚ := 8

/-- `GRID_OFFSET_Y = 8`, top margin. -/
def GRID_OFFSET_Y : ℚ := 8

/-- JS `Math.round`: round to the nearest integer, ties toward positive
infinity, i.e. `Math.round(q) = ⌊q + 1/2⌋`. -/
def jsRound (q : ℚ) : ℤ :=
  ⌊q + 1/2⌋

/-- `snapToGrid(x, y)`: translate by the grid offset, `Math.round` the
per-axis cell quotient, clamp the cell index with `Math.max(0, ·)` and
translate back. -/
def snapToGrid (x y : ℚ) : Point :=
  let gridX := jsRound ((x - GRID_OFFSET_X) / GRID_SIZE_X)
  let gridY := jsRound ((y - GRID_OFFSET_Y) / GRID_SIZE_Y)
  { x := (max 0 gridX : ℤ) * GRID_SIZE_X + GRID_OFFSET_X
    y := (max 0 gridY : ℤ) * GRID_SIZE_Y + GRID_OFFSET_Y }

/-- Rounding to the nearest integer with ties away from zero, the
convention named by the specification of `snapToGrid`. -/
def roundTiesAwayFromZero (q : ℚ) : ℤ :=
  if 0 ≤ q then ⌊q + 1/2⌋ else ⌈q - 1/2⌉

/-- The reference algorithm the specification states for `snapToGrid`:
translate by the negated offset, divide by the cell size, round to the
nearest integer with ties away from zero, clamp the cell index to be
non-negative, translate back. -/
def snapToGridSpec (x y : ℚ) : Point :=
  let gridX := roundTiesAwayFromZero ((x - GRID_OFFSET_X) / GRID_SIZE_X)
  let gridY := roundTiesAwayFromZero ((y - GRID_OFFSET_Y) / GRID_SIZE_Y)
  { x := (max 0 gridX : ℤ) * GRID_SIZE_X + GRID_OFFSET_X
    y := (max 0 gridY : ℤ) * GRID_SIZE_Y + GRID_OFFSET_Y }

/-- The `handleMouseUp` commit of a DesktopIcon drag: the release position is
clamped to `[0, innerWidth - GRID_SIZE_X] × [0, innerHeight - GRID_SIZE_Y - 40]`
and snapped to the grid; the result becomes the stored `position`. -/
def commitIconPosition (viewportWidth viewportHeight finalX finalY : ℚ) : Point :=
  let maxX := viewportWidth - GRID_SIZE_X
  let maxY := viewportHeight - GRID_SIZE_Y - 40
  let clampedX := max 0 (min finalX maxX)
  let clampedY := max 0 (min finalY maxY)
  snapToGrid clampedX clampedY

/-! ## Click disambiguation (DesktopIcon `handleClick` and its 250 ms timer)

The timer is modelled explicitly: `pendingDeadline` is the instant the
pending `setTimeout` callback becomes due, `singles` and `doubles` count the
`onClick` and `onDoubleClick` firings.  The callback of a timer armed at
time `t` runs strictly after `t + 250`; a click event arriving no later than
the deadline wins the race, matching the observable contract. -/

/-- `250` ms, the `setTimeout` delay of the click-disambiguation timer. -/
def DOUBLE_CLICK_MS : ℚ := 250

/-- Observable state of the click-disambiguation logic of one icon. -/
structure ClickState where
  pendingDeadline : Option ℚ
  singles : ℕ
  doubles : ℕ
deriving DecidableEq

/-- Initial click state: no pending timer, nothing fired. -/
def initClickState : ClickState :=
  ⟨none, 0, 0⟩

/-- Let the pending timer fire if the current time is strictly past its
deadline: the `setTimeout` callback nulls `clickTimeout` and fires `onClick`. -/
def expireTimer (s : ClickState) (now : ℚ) : ClickState :=
  match s.pendingDeadline with
  | some d =>
      if d < now then
        { s with pendingDeadline := none, singles := s.singles + 1 }
      else s
  | none => s

/-- `handleClick` at time `t`: `if (hasMoved) return`; else if a timer is
pending, clear it and fire `onDoubleClick`; else arm the 250 ms timer whose
expiry fires `onClick`.  Any timer already due fires first. -/
def handleClick (s : ClickState) (t : ℚ) (hasMoved : Bool) : ClickState :=
  let s := expireTimer s t
  if hasMoved then s
  else
    match s.pendingDeadline with
    | some _ => { s with pendingDeadline := none, doubles := s.doubles + 1 }
    | none => { s with pendingDeadline := some (t + DOUBLE_CLICK_MS) }

/-- Process a time-ordered list of click events, each a time and the
`hasMoved` flag of the pointer sequence that produced it. -/
def runClicks (s : ClickState) : List (ℚ × Bool) → ClickState
  | [] => s
  | (t, m) :: rest => runClicks (handleClick s t m) rest

/-- End of observation: any still-pending timer eventually fires `onClick`. -/
def finalizeClicks (s : ClickState) : ClickState :=
  match s.pendingDeadline with
  | some _ => { s with pendingDeadline := none, singles := s.singles + 1 }
  | none => s

/-- A concrete window in normal state at position (50,60) with size (400,300),
used to instantiate universally quantified theorems. -/
def sampleWindow : WindowState :=
  { position := ⟨50, 60⟩
    size := ⟨400, 300⟩
    isMinimized := false
    isMaximized := false
    preMaximizeState := ⟨⟨0, 0⟩, ⟨0, 0⟩, false⟩ }

/-- A concrete resize session start: pointer at (500,400), rect 400×300,
window position (50,60). -/
def sampleStart : ResizeStart :=
  ⟨500, 400, 400, 300, 50, 60⟩

/-! ## Theorems -/

/-- C1: for every window in normal state with stored position `p` and size
`s`, `toggleMaximize()` followed by `toggleMaximize()` again restores stored
position exactly `p` and stored size exactly `s`. -/
theorem maximize_restore_roundtrip (w : WindowState)
    (hmax : w.isMaximized = false) :
    (handleMaximize (handleMaximize w)).position = w.position ∧
    (handleMaximize (handleMaximize w)).size = w.size := by
  simp [handleMaximize, hmax]

/-- C1 witness: the window at position (50,60) with size (400,300) is
restored verbatim by a maximize-restore round trip. -/
theorem maximize_restore_roundtrip_witness :
    sampleWindow.isMaximized = false ∧
    (handleMaximize (handleMaximize sampleWindow)).position = ⟨50, 60⟩ ∧
    (handleMaximize (handleMaximize sampleWindow)).size = ⟨400, 300⟩ :=
  ⟨rfl, (maximize_restore_roundtrip sampleWindow rfl).1,
    (maximize_restore_roundtrip sampleWindow rfl).2⟩

/-- C2 counterexample: entering the maximized state does change a stored
field — on the window at stored position (50,60), `toggleMaximize()` sets the
stored position to `(0, MENU_BAR_HEIGHT)`, not leaving it untouched. -/
theorem maximize_changes_stored_position :
    sampleWindow.isMaximized = false ∧
    (handleMaximize sampleWindow).position ≠ sampleWindow.position := by
  decide

/-- C2 amended: while maximized the displayed position is derived (constant
`(4, MENU_BAR_HEIGHT)` regardless of stored position); entering maximized
leaves the stored size untouched but overwrites the stored position with
`(0, MENU_BAR_HEIGHT)` (the snapshot preserving the old value); and a window
restored while no snapshot was ever captured keeps its stored position and
size. -/
theorem maximize_display_derived (w : WindowState) :
    (w.isMaximized = false →
      (handleMaximize w).size = w.size ∧
      (handleMaximize w).position = ⟨0, MENU_BAR_HEIGHT⟩ ∧
      (handleMaximize w).preMaximizeState = ⟨w.position, w.size, true⟩) ∧
    (w.isMaximized = true →
      displayedPosition w = ⟨4, MENU_BAR_HEIGHT⟩) ∧
    (w.isMaximized = true → w.preMaximizeState.wasSet = false →
      (handleMaximize w).position = w.position ∧
      (handleMaximize w).size = w.size) := by
  refine ⟨fun h => ?_, fun h => ?_, fun h hws => ?_⟩
  · simp [handleMaximize, h]
  · simp [displayedPosition, h]
  · simp [handleMaximize, h, hws]

/-- C2 amended witness: instantiated at the sample window (entering
maximize) and at a maximized window without a snapshot (restoring). -/
theorem maximize_display_derived_witness :
    ((handleMaximize sampleWindow).size = ⟨400, 300⟩ ∧
      (handleMaximize sampleWindow).position = ⟨0, MENU_BAR_HEIGHT⟩ ∧
      (handleMaximize sampleWindow).preMaximizeState = ⟨⟨50, 60⟩, ⟨400, 300⟩, true⟩) ∧
    (displayedPosition { sampleWindow with isMaximized := true } = ⟨4, MENU_BAR_HEIGHT⟩) ∧
    ((handleMaximize { sampleWindow with isMaximized := true }).position = ⟨50, 60⟩ ∧
      (handleMaximize { sampleWindow with isMaximized := true }).size = ⟨400, 300⟩) :=
  ⟨(maximize_display_derived sampleWindow).1 rfl,
    (maximize_display_derived { sampleWindow with isMaximized := true }).2.1 rfl,
    (maximize_display_derived { sampleWindow with isMaximized := true }).2.2 rfl rfl⟩

/-- After either toggle, at least one of the two flags is false:
`handleMinimize` always clears `isMaximized`, and `handleMaximize` always
clears `isMinimized`. -/
lemma applyOp_exclusive (w : WindowState) (o : WinOp) :
    (applyOp w o).isMinimized = false ∨ (applyOp w o).isMaximized = false := by
  cases o with
  | minimize =>
      right
      simp only [applyOp, handleMinimize]
      cases h : w.isMaximized <;> simp [h]
  | maximize =>
      left
      simp only [applyOp, handleMaximize]
      split <;> [skip; split] <;> cases h : w.isMinimized <;> simp [h]

/-- The exclusion property is preserved by every toggle sequence. -/
lemma runOps_exclusive (ops : List WinOp) :
    ∀ w : WindowState,
      (w.isMinimized = false ∨ w.isMaximized = false) →
      (runOps w ops).isMinimized = false ∨ (runOps w ops).isMaximized = false := by
  induction ops with
  | nil =>
      intro w h
      exact h
  | cons o rest ih =>
      intro w _
      exact ih (applyOp w o) (applyOp_exclusive w o)

/-- C8: in every state reachable from the initial state by any sequence of
`toggleMinimize()` and `toggleMaximize()` calls, the minimized and maximized
flags are never both true: at least one of them is false, since entering
either one clears the other. -/
theorem minimized_maximized_exclusive (p : Point) (ops : List WinOp) :
    (runOps (initWindow p) ops).isMinimized = false ∨
    (runOps (initWindow p) ops).isMaximized = false :=
  runOps_exclusive ops (initWindow p) (Or.inl rfl)

/-- C3: during a resize session, a west-edge move with horizontal delta `dx`
applies `width = startWidth - dx` and `position.x = startX + dx` only if
`startWidth - dx ≥ minWidth`, otherwise width and position.x keep their
session-start values for that frame; a north-edge move with vertical delta
`dy` applies `height = startHeight - dy` and `position.y = startY + dy` only
if `startHeight - dy ≥ minHeight` and `startY + dy ≥ MENU_BAR_HEIGHT`,
otherwise both are unchanged.  The rejection is silent: `resizeFrame` is a
total function, never an error. -/
theorem resize_per_axis_rejection :
    (∀ (start : ResizeStart) (d : ResizeDirection) (dx dy : ℚ),
      d.includesW = true →
      (start.width - dx ≥ minWidth →
        (resizeFrame start d (start.x + dx) (start.y + dy)).1.width = start.width - dx ∧
        (resizeFrame start d (start.x + dx) (start.y + dy)).2.x = start.posX + dx) ∧
      (¬(start.width - dx ≥ minWidth) →
        (resizeFrame start d (start.x + dx) (start.y + dy)).1.width = start.width ∧
        (resizeFrame start d (start.x + dx) (start.y + dy)).2.x = start.posX)) ∧
    (∀ (start : ResizeStart) (d : ResizeDirection) (dx dy : ℚ),
      d.includesN = true →
      (start.height - dy ≥ minHeight ∧ start.posY + dy ≥ MENU_BAR_HEIGHT →
        (resizeFrame start d (start.x + dx) (start.y + dy)).1.height = start.height - dy ∧
        (resizeFrame start d (start.x + dx) (start.y + dy)).2.y = start.posY + dy) ∧
      (¬(start.height - dy ≥ minHeight ∧ start.posY + dy ≥ MENU_BAR_HEIGHT) →
        (resizeFrame start d (start.x + dx) (start.y + dy)).1.height = start.height ∧
        (resizeFrame start d (start.x + dx) (start.y + dy)).2.y = start.posY)) := by
  constructor
  · intro start d dx dy hd
    constructor
    · intro hok
      cases d <;> simp_all [resizeFrame, ResizeDirection.includesW,
        ResizeDirection.includesE, ResizeDirection.includesS, ResizeDirection.includesN]
    · intro hbad
      cases d <;> simp_all [resizeFrame, ResizeDirection.includesW,
        ResizeDirection.includesE, ResizeDirection.includesS,
        ResizeDirection.includesN] <;>
        rw [if_neg (not_le.mpr hbad)] <;> exact ⟨rfl, rfl⟩
  · intro start d dx dy hd
    constructor
    · intro hok
      cases d <;> simp_all [resizeFrame, ResizeDirection.includesW,
        ResizeDirection.includesE, ResizeDirection.includesS, ResizeDirection.includesN]
    · intro hbad
      cases d <;> simp_all [resizeFrame, ResizeDirection.includesW,
        ResizeDirection.includesE, ResizeDirection.includesS,
        ResizeDirection.includesN] <;>
        rw [if_neg] <;> try exact ⟨rfl, rfl⟩
      all_goals exact fun hc => absurd hc.2 (not_le.mpr (hbad hc.1))

/-- C3 witness: on the 400×300 session, a west move with `dx = 120`
(candidate width 280 < 320) is rejected, `dx = 50` (candidate width 350) is
applied; a north move with `dy = 50` (candidate height 250, candidate posY
110) is applied, `dy = -30` (candidate posY 30 < 42) is rejected. -/
theorem resize_per_axis_rejection_witness :
    ((resizeFrame sampleStart .w (sampleStart.x + 120) (sampleStart.y + 0)).1.width = 400 ∧
      (resizeFrame sampleStart .w (sampleStart.x + 120) (sampleStart.y + 0)).2.x = 50) ∧
    ((resizeFrame sampleStart .w (sampleStart.x + 50) (sampleStart.y + 0)).1.width = 400 - 50 ∧
      (resizeFrame sampleStart .w (sampleStart.x + 50) (sampleStart.y + 0)).2.x = 50 + 50) ∧
    ((resizeFrame sampleStart .n (sampleStart.x + 0) (sampleStart.y + 50)).1.height = 300 - 50 ∧
      (resizeFrame sampleStart .n (sampleStart.x + 0) (sampleStart.y + 50)).2.y = 60 + 50) ∧
    ((resizeFrame sampleStart .n (sampleStart.x + 0) (sampleStart.y + (-30))).1.height = 300 ∧
      (resizeFrame sampleStart .n (sampleStart.x + 0) (sampleStart.y + (-30))).2.y = 60) :=
  ⟨(resize_per_axis_rejection.1 sampleStart .w 120 0 rfl).2
      (by norm_num [sampleStart, minWidth]),
    (resize_per_axis_rejection.1 sampleStart .w 50 0 rfl).1
      (by norm_num [sampleStart, minWidth]),
    (resize_per_axis_rejection.2 sampleStart .n 0 50 rfl).1
      (by norm_num [sampleStart, minHeight, MENU_BAR_HEIGHT]),
    (resize_per_axis_rejection.2 sampleStart .n 0 (-30) rfl).2
      (by norm_num [sampleStart, minHeight, MENU_BAR_HEIGHT])⟩

/-- C4: for a resize session that the guard lets start (resizable,
not maximized, not mobile) whose starting rect satisfies the minimums,
every pointer-move frame in any of the eight directions yields
`width ≥ minWidth` and `height ≥ minHeight`: east and south clamp with
`max`, west and north discard the delta for that axis. -/
theorem resize_min_size_invariant (resizable isMaximized isMobile : Bool)
    (_hguard : canStartResize resizable isMaximized isMobile = true)
    (start : ResizeStart) (d : ResizeDirection) (clientX clientY : ℚ)
    (hw : start.width ≥ minWidth) (hh : start.height ≥ minHeight) :
    (resizeFrame start d clientX clientY).1.width ≥ minWidth ∧
    (resizeFrame start d clientX clientY).1.height ≥ minHeight := by
  cases d <;> simp only [resizeFrame, ResizeDirection.includesW,
    ResizeDirection.includesE, ResizeDirection.includesS, ResizeDirection.includesN,
    Bool.false_eq_true, if_true, if_false, ite_true, ite_false] <;>
    constructor <;> first
      | exact le_max_left _ _
      | assumption
      | (split <;> simp_all)

/-- C4 witness: a northwest frame on the 400×300 session with a pointer move
of (+120, -30) keeps width 400 ≥ 320 and height 300 ≥ 200. -/
theorem resize_min_size_invariant_witness :
    canStartResize true false false = true ∧
    sampleStart.width ≥ minWidth ∧ sampleStart.height ≥ minHeight ∧
    (resizeFrame sampleStart .nw (sampleStart.x + 120) (sampleStart.y + (-30))).1.width ≥ minWidth ∧
    (resizeFrame sampleStart .nw (sampleStart.x + 120) (sampleStart.y + (-30))).1.height ≥ minHeight :=
  ⟨rfl, by norm_num [sampleStart, minWidth], by norm_num [sampleStart, minHeight],
    (resize_min_size_invariant true false false rfl sampleStart .nw _ _
      (by norm_num [sampleStart, minWidth]) (by norm_num [sampleStart, minHeight])).1,
    (resize_min_size_invariant true false false rfl sampleStart .nw _ _
      (by norm_num [sampleStart, minWidth]) (by norm_num [sampleStart, minHeight])).2⟩

/-- C10: the initial position passed at creation is stored verbatim with no
clamping — even below the menu bar or negative — and neither stored position
nor stored size is changed by a minimize toggle. -/
theorem initial_position_unclamped :
    (∀ p : Point, (initWindow p).position = p) ∧
    (∀ w : WindowState,
      (handleMinimize w).position = w.position ∧
      (handleMinimize w).size = w.size) :=
  ⟨fun _ => rfl, fun _ => ⟨rfl, rfl⟩⟩

/-- JS `Math.round` fixes every integer. -/
lemma jsRound_intCast (k : ℤ) : jsRound (k : ℚ) = k := by
  rw [jsRound, Int.floor_eq_iff]
  refine ⟨by linarith, ?_⟩
  linarith

/-- After the `Math.max(0, ·)` clamp, rounding ties toward positive infinity
and rounding ties away from zero agree: for non-negative arguments the two
conventions coincide, and for negative arguments both round to a
non-positive integer that the clamp sends to zero. -/
lemma max_jsRound_eq (q : ℚ) :
    max 0 (jsRound q) = max 0 (roundTiesAwayFromZero q) := by
  rcases le_or_lt 0 q with h | h
  · rw [roundTiesAwayFromZero, if_pos h, jsRound]
  · have h1 : jsRound q ≤ 0 := by
      have : ⌊q + 1/2⌋ < 1 := Int.floor_lt.mpr (by push_cast; linarith)
      rw [jsRound]
      omega
    have h2 : ⌈q - 1/2⌉ ≤ 0 := Int.ceil_le.mpr (by linarith)
    rw [roundTiesAwayFromZero, if_neg (not_le.mpr h), max_eq_left h1, max_eq_left h2]

/-- C6: `snapToGrid` is a pure total function on arbitrary rational pairs
that coincides with the reference algorithm (translate by the negated
offset, divide by the cell size, round to nearest with ties away from zero,
clamp the cell index to be non-negative, translate back), and its result
always has non-negative coordinates. -/
theorem snapToGrid_correct (x y : ℚ) :
    snapToGrid x y = snapToGridSpec x y ∧
    0 ≤ (snapToGrid x y).x ∧ 0 ≤ (snapToGrid x y).y := by
  refine ⟨?_, ?_, ?_⟩
  · simp [snapToGrid, snapToGridSpec, max_jsRound_eq]
  · have h : (0:ℚ) ≤ ((max 0 (jsRound ((x - GRID_OFFSET_X) / GRID_SIZE_X)) : ℤ) : ℚ) := by
      exact_mod_cast le_max_left 0 _
    have h2 := mul_nonneg h (by norm_num [GRID_SIZE_X] : (0:ℚ) ≤ GRID_SIZE_X)
    have h3 : (0:ℚ) ≤ GRID_OFFSET_X := by norm_num [GRID_OFFSET_X]
    simp only [snapToGrid]
    linarith
  · have h : (0:ℚ) ≤ ((max 0 (jsRound ((y - GRID_OFFSET_Y) / GRID_SIZE_Y)) : ℤ) : ℚ) := by
      exact_mod_cast le_max_left 0 _
    have h2 := mul_nonneg h (by norm_num [GRID_SIZE_Y] : (0:ℚ) ≤ GRID_SIZE_Y)
    have h3 : (0:ℚ) ≤ GRID_OFFSET_Y := by norm_num [GRID_OFFSET_Y]
    simp only [snapToGrid]
    linarith

/-- A clamped cell index is a fixed point of translating back onto the grid
and snapping again. -/
lemma snap_coord_fixed (s o : ℚ) (hs : 0 < s) (g : ℤ) :
    (max 0 (jsRound ((((max 0 g : ℤ) : ℚ) * s + o - o) / s)) : ℤ) = max 0 g := by
  have h1 : (((max 0 g : ℤ) : ℚ) * s + o - o) / s = ((max 0 g : ℤ) : ℚ) := by
    field_simp
  rw [h1, jsRound_intCast, max_eq_right (le_max_left 0 g)]

/-- C7: `snapToGrid` is idempotent: snapping an already snapped point
returns it unchanged. -/
theorem snapToGrid_idempotent (x y : ℚ) :
    snapToGrid (snapToGrid x y).x (snapToGrid x y).y = snapToGrid x y := by
  simp only [snapToGrid]
  rw [Point.mk.injEq]
  constructor
  · rw [snap_coord_fixed GRID_SIZE_X GRID_OFFSET_X (by norm_num [GRID_SIZE_X])]
  · rw [snap_coord_fixed GRID_SIZE_Y GRID_OFFSET_Y (by norm_num [GRID_SIZE_Y])]

/-- C5 counterexample: the committed icon position does not always lie
within the clamp bounds.  With a 240×300 viewport the clamp bound for x is
`240 - GRID_SIZE_X = 150`; releasing at x = 150 commits x = 188, beyond the
bound (and the 90 px cell then overflows the 240 px viewport). -/
theorem icon_commit_outside_viewport_bound :
    (commitIconPosition 240 300 150 0).x = 188 ∧
    ¬((commitIconPosition 240 300 150 0).x ≤ 240 - GRID_SIZE_X) := by
  norm_num [commitIconPosition, snapToGrid, jsRound, GRID_SIZE_X, GRID_SIZE_Y,
    GRID_OFFSET_X, GRID_OFFSET_Y]

/-- Snapping a non-negative coordinate moves it at most half a cell to the
right: the snapped value is at most the input plus `s / 2`. -/
lemma snap_coord_le (s o c : ℚ) (hs : 0 < s) (hos : o ≤ s / 2) (hc : 0 ≤ c) :
    ((max 0 (jsRound ((c - o) / s)) : ℤ) : ℚ) * s + o ≤ c + s / 2 := by
  set g := jsRound ((c - o) / s) with hg
  rcases le_or_lt g 0 with h | h
  · rw [max_eq_left h]
    linarith
  · rw [max_eq_right h.le]
    have h1 : (g : ℚ) ≤ (c - o) / s + 1/2 := by
      rw [hg, jsRound]
      exact Int.floor_le _
    have h2 : (g : ℚ) * s ≤ ((c - o) / s + 1/2) * s :=
      mul_le_mul_of_nonneg_right h1 hs.le
    have h3 : ((c - o) / s + 1/2) * s = (c - o) + s / 2 := by
      field_simp
      ring
    linarith

/-- C5 amended: for every drag-then-release on a desktop icon, the committed
position is `snapToGrid` of the release value clamped to
`[0, viewportWidth - GRID_SIZE_X] × [0, viewportHeight - GRID_SIZE_Y - 40]`,
and is grid-aligned with non-negative cell indices; snapping can however
push it past the clamp bound by up to half a cell, so only the bounds
`x ≤ (viewportWidth - GRID_SIZE_X) + GRID_SIZE_X / 2` and
`y ≤ (viewportHeight - GRID_SIZE_Y - 40) + GRID_SIZE_Y / 2` hold. -/
theorem icon_commit_grid_aligned (vw vh fx fy : ℚ)
    (hvw : vw ≥ GRID_SIZE_X) (hvh : vh ≥ GRID_SIZE_Y + 40) :
    (∃ k : ℤ, 0 ≤ k ∧
      (commitIconPosition vw vh fx fy).x = (k : ℚ) * GRID_SIZE_X + GRID_OFFSET_X) ∧
    (∃ m : ℤ, 0 ≤ m ∧
      (commitIconPosition vw vh fx fy).y = (m : ℚ) * GRID_SIZE_Y + GRID_OFFSET_Y) ∧
    commitIconPosition vw vh fx fy =
      snapToGrid (max 0 (min fx (vw - GRID_SIZE_X)))
        (max 0 (min fy (vh - GRID_SIZE_Y - 40))) ∧
    (commitIconPosition vw vh fx fy).x ≤ (vw - GRID_SIZE_X) + GRID_SIZE_X / 2 ∧
    (commitIconPosition vw vh fx fy).y ≤ (vh - GRID_SIZE_Y - 40) + GRID_SIZE_Y / 2 := by
  refine ⟨?_, ?_, rfl, ?_, ?_⟩
  · exact ⟨max 0 (jsRound ((max 0 (min fx (vw - GRID_SIZE_X)) - GRID_OFFSET_X) / GRID_SIZE_X)),
      le_max_left 0 _, rfl⟩
  · exact ⟨max 0 (jsRound ((max 0 (min fy (vh - GRID_SIZE_Y - 40)) - GRID_OFFSET_Y) / GRID_SIZE_Y)),
      le_max_left 0 _, rfl⟩
  · have hb := snap_coord_le GRID_SIZE_X GRID_OFFSET_X (max 0 (min fx (vw - GRID_SIZE_X)))
      (by norm_num [GRID_SIZE_X]) (by norm_num [GRID_SIZE_X, GRID_OFFSET_X]) (le_max_left 0 _)
    have hcl : max 0 (min fx (vw - GRID_SIZE_X)) ≤ vw - GRID_SIZE_X :=
      max_le (by linarith [hvw]) (min_le_right _ _)
    calc (commitIconPosition vw vh fx fy).x
        ≤ max 0 (min fx (vw - GRID_SIZE_X)) + GRID_SIZE_X / 2 := hb
      _ ≤ (vw - GRID_SIZE_X) + GRID_SIZE_X / 2 := by linarith
  · have hb := snap_coord_le GRID_SIZE_Y GRID_OFFSET_Y (max 0 (min fy (vh - GRID_SIZE_Y - 40)))
      (by norm_num [GRID_SIZE_Y]) (by norm_num [GRID_SIZE_Y, GRID_OFFSET_Y]) (le_max_left 0 _)
    have hcl : max 0 (min fy (vh - GRID_SIZE_Y - 40)) ≤ vh - GRID_SIZE_Y - 40 :=
      max_le (by linarith [hvh]) (min_le_right _ _)
    calc (commitIconPosition vw vh fx fy).y
        ≤ max 0 (min fy (vh - GRID_SIZE_Y - 40)) + GRID_SIZE_Y / 2 := hb
      _ ≤ (vh - GRID_SIZE_Y - 40) + GRID_SIZE_Y / 2 := by linarith

/-- C5 amended witness: instantiated on the 240×300 viewport at release
position (150, 0). -/
theorem icon_commit_grid_aligned_witness :
    (240 : ℚ) ≥ GRID_SIZE_X ∧ (300 : ℚ) ≥ GRID_SIZE_Y + 40 ∧
    ((∃ k : ℤ, 0 ≤ k ∧
      (commitIconPosition 240 300 150 0).x = (k : ℚ) * GRID_SIZE_X + GRID_OFFSET_X) ∧
    (∃ m : ℤ, 0 ≤ m ∧
      (commitIconPosition 240 300 150 0).y = (m : ℚ) * GRID_SIZE_Y + GRID_OFFSET_Y) ∧
    commitIconPosition 240 300 150 0 =
      snapToGrid (max 0 (min 150 (240 - GRID_SIZE_X)))
        (max 0 (min 0 (300 - GRID_SIZE_Y - 40))) ∧
    (commitIconPosition 240 300 150 0).x ≤ (240 - GRID_SIZE_X) + GRID_SIZE_X / 2 ∧
    (commitIconPosition 240 300 150 0).y ≤ (300 - GRID_SIZE_Y - 40) + GRID_SIZE_Y / 2) :=
  ⟨by norm_num [GRID_SIZE_X], by norm_num [GRID_SIZE_Y],
    icon_commit_grid_aligned 240 300 150 0 (by norm_num [GRID_SIZE_X])
      (by norm_num [GRID_SIZE_Y])⟩

/-- C9: two click candidates with zero movement within 250 ms fire exactly
one double-click and zero single-clicks; one candidate followed by more than
250 ms of silence fires exactly one single-click (and the timer is gone);
a pointer sequence with movement fires neither action. -/
theorem click_disambiguation :
    (∀ t1 t2 : ℚ, t1 ≤ t2 → t2 ≤ t1 + DOUBLE_CLICK_MS →
      (finalizeClicks (runClicks initClickState [(t1, false), (t2, false)])).doubles = 1 ∧
      (finalizeClicks (runClicks initClickState [(t1, false), (t2, false)])).singles = 0) ∧
    (∀ t T : ℚ, t + DOUBLE_CLICK_MS < T →
      (expireTimer (runClicks initClickState [(t, false)]) T).singles = 1 ∧
      (expireTimer (runClicks initClickState [(t, false)]) T).doubles = 0 ∧
      (expireTimer (runClicks initClickState [(t, false)]) T).pendingDeadline = none) ∧
    (∀ t : ℚ,
      (finalizeClicks (runClicks initClickState [(t, true)])).singles = 0 ∧
      (finalizeClicks (runClicks initClickState [(t, true)])).doubles = 0) := by
  refine ⟨fun t1 t2 h1 h2 => ?_, fun t T hT => ?_, fun t => ?_⟩
  · simp [runClicks, handleClick, expireTimer, initClickState, finalizeClicks,
      not_lt.mpr h2]
  · simp [runClicks, handleClick, expireTimer, initClickState, finalizeClicks, hT]
  · simp [runClicks, handleClick, expireTimer, initClickState, finalizeClicks]

/-- C9 witness: clicks at 0 ms and 100 ms give one double-click; a click at
0 ms observed at 300 ms gives one single-click; a moved sequence at 5 ms
gives neither. -/
theorem click_disambiguation_witness :
    ((finalizeClicks (runClicks initClickState [(0, false), (100, false)])).doubles = 1 ∧
      (finalizeClicks (runClicks initClickState [(0, false), (100, false)])).singles = 0) ∧
    ((expireTimer (runClicks initClickState [(0, false)]) 300).singles = 1 ∧
      (expireTimer (runClicks initClickState [(0, false)]) 300).doubles = 0 ∧
      (expireTimer (runClicks initClickState [(0, false)]) 300).pendingDeadline = none) ∧
    ((finalizeClicks (runClicks initClickState [(5, true)])).singles = 0 ∧
      (finalizeClicks (runClicks initClickState [(5, true)])).doubles = 0) :=
  ⟨click_disambiguation.1 0 100 (by norm_num) (by norm_num [DOUBLE_CLICK_MS]),
    click_disambiguation.2.1 0 300 (by norm_num [DOUBLE_CLICK_MS]),
    click_disambiguation.2.2 5⟩

end GioPrompt
